import Mathlib

/-!
Verification of the orchestration logic of `src/open_flamingo/flamingo.py`
(the `Flamingo` class: `forward` and `generate`).

The shallow embedding threads the mutable per-decoder-layer conditioning
state explicitly: a `CondState` is the list of each decoder layer's stored
visual-feature tensor (`none` = unconditioned).  The external collaborators
(vision encoder, Perceiver resampler, the underlying language-model forward
body and its built-in generation routine) are parameters of a
`FlamingoModel`; the fallible delegated calls return `Except`.
-/

namespace OpenFlamingo

/-- A tensor, modelled as a flat list of integer entries. -/
abbrev Tensor := List Int

/-- Output of the external vision encoder; `flamingo.py` only reads its
`last_hidden_state` field. -/
structure VisionOutput where
  last_hidden_state : Tensor
deriving DecidableEq

/-- Output of the language model's forward pass (logits, optional loss),
returned unchanged by `Flamingo.forward`. -/
structure LMOutput where
  logits : List Tensor
  loss : Option Int
deriving DecidableEq

/-- The keyword arguments passed to `lang_encoder.generate` at
`flamingo.py` lines 66-80, in source order. -/
structure GenArgs where
  input_ids : Tensor
  attention_mask : Option Tensor
  max_length : Nat
  eos_token_id : Int
  num_beams : Nat
  temperature : Rat
  top_k : Nat
  top_p : Rat
  no_repeat_ngram_size : Nat
  length_penalty : Rat
  num_return_sequences : Nat
  do_sample : Bool
  early_stopping : Bool
deriving DecidableEq

/-- The conditioning state of the language model's decoder layers: one
entry per layer, `none` = unconditioned, `some t` = conditioned on tensor
`t`. -/
structure CondState where
  layers : List (Option Tensor)
deriving DecidableEq

/-- Modelled from the spec: `layer.condition(features)` (the decoder-layer
module of `flamingo_lm.py`/`helpers.py`, not under `src/`) stores the
tensor on that layer, replacing whatever was there. -/
def condition (t : Tensor) : Option Tensor → Option Tensor :=
  fun _ => some t

/-- The loop `for layer in self.lang_encoder.model.decoder.layers:
layer.condition(vision_attended)` at `flamingo.py` lines 63-64: every
decoder layer is conditioned on the same tensor. -/
def conditionAll (s : CondState) (t : Tensor) : CondState :=
  CondState.mk (s.layers.map (condition t))

/-- Modelled from the spec: `lang_encoder.clear_conditioned_layers()`
(defined in `flamingo_lm.py`, not under `src/`) removes the stored visual
features from every decoder layer. -/
def clear_conditioned_layers (s : CondState) : CondState :=
  CondState.mk (s.layers.map (fun _ => none))

/-- Modelled from the spec: after construction (`init_flamingo`), every
decoder layer starts unconditioned. -/
def initState (n : Nat) : CondState :=
  CondState.mk (List.replicate n none)

/-- Every decoder layer's state equals "unconditioned". -/
def CondState.allUnconditioned (s : CondState) : Prop :=
  ∀ x ∈ s.layers, x = none

/-- Every decoder layer still holds stored visual features. -/
def CondState.allConditioned (s : CondState) : Prop :=
  ∀ x ∈ s.layers, x ≠ none

/-- The external and not-under-`src/` collaborators that `flamingo.py`
calls into, as pure parameters.  `lm_body` is the computation performed by
`lang_encoder.__call__` after it has distributed the feature tensor to the
layers; `lm_generate` is the language model's built-in generation routine.
Both may raise, modelled as `Except`.  `next_token` is the model's
next-token function, used when the generation routine is instantiated with
the greedy loop modelled from the spec. -/
structure FlamingoModel where
  vision_encoder : Tensor → VisionOutput
  perceiver_resampler : Tensor → Tensor
  lm_body : Tensor → Tensor → Option Tensor → Option Tensor → Except String LMOutput
  lm_generate : GenArgs → Except String Tensor
  next_token : Tensor → Int

/-- Modelled from the spec: `lang_encoder(vision_features, lang_x, ...)`
(`OPTForCausalLMFlamingo.__call__`, defined in `flamingo_lm.py`, not under
`src/`) internally distributes the feature tensor to every
cross-attention-augmented layer and then runs the language model, which may
raise. -/
def langEncoderCall (m : FlamingoModel) (s : CondState) (vis lang : Tensor)
    (attention_mask labels : Option Tensor) : Except String LMOutput × CondState :=
  (m.lm_body vis lang attention_mask labels, conditionAll s vis)

/-- Embedding of `Flamingo.forward` (`flamingo.py` lines 28-33): encode
`vision_x`, pass `last_hidden_state` with `lang_x`, `attention_mask` and
`labels` through the language encoder, clear the conditioned layers, return
the output.  On an exception from the delegated call the clearing line is
never reached: the error propagates with the state as it stood. -/
def Flamingo.forward (m : FlamingoModel) (s : CondState) (vision_x lang_x : Tensor)
    (attention_mask labels : Option Tensor) : Except String LMOutput × CondState :=
  let vision_attended := m.vision_encoder vision_x
  match langEncoderCall m s vision_attended.last_hidden_state lang_x attention_mask labels with
  | (Except.error e, s1) => (Except.error e, s1)
  | (Except.ok output, s1) => (Except.ok output, clear_conditioned_layers s1)

/-- Embedding of `Flamingo.generate` (`flamingo.py` lines 35-83): encode
`vision_x`, resample via the Perceiver resampler, condition every decoder
layer, delegate to `lang_encoder.generate` with all hyperparameters passed
through (`eoc_token_id` as `eos_token_id`), clear the conditioned layers,
return the output.  On an exception from the delegated call the clearing
line is never reached. -/
def Flamingo.generate (m : FlamingoModel) (s : CondState) (vision_x lang_x : Tensor)
    (max_length : Nat) (eoc_token_id : Int) (attention_mask : Option Tensor)
    (num_beams : Nat) (temperature : Rat) (top_k : Nat) (top_p : Rat)
    (no_repeat_ngram_size : Nat) (length_penalty : Rat) (num_return_sequences : Nat)
    (do_sample early_stopping : Bool) : Except String Tensor × CondState :=
  let vision_attended := (m.vision_encoder vision_x).last_hidden_state
  let vision_attended := m.perceiver_resampler vision_attended
  let s1 := conditionAll s vision_attended
  match m.lm_generate (GenArgs.mk lang_x attention_mask max_length eoc_token_id num_beams
      temperature top_k top_p no_repeat_ngram_size length_penalty num_return_sequences
      do_sample early_stopping) with
  | Except.error e => (Except.error e, s1)
  | Except.ok output => (Except.ok output, clear_conditioned_layers s1)

/-- Modelled from the spec: one fuelled step loop of the delegated greedy
decoding routine — while the sequence is shorter than `maxLen`, append the
model's next token, stopping immediately after the end-of-chunk token is
produced. -/
def genLoop (next : Tensor → Int) (maxLen : Nat) (eoc : Int) : Nat → Tensor → Tensor
  | 0, acc => acc
  | Nat.succ fuel, acc =>
    if maxLen ≤ acc.length then acc
    else if next acc = eoc then acc ++ [next acc]
    else genLoop next maxLen eoc fuel (acc ++ [next acc])

/-- Modelled from the spec: the language model's built-in generation
routine (external to this repository) extends `input_ids` token by token,
stopping when `eos_token_id` is produced or `max_length` is reached, and
returns the input with the generated tokens appended. -/
def specGenerate (next : Tensor → Int) (a : GenArgs) : Tensor :=
  genLoop next a.max_length a.eos_token_id a.max_length a.input_ids

/-- Generation stopped at the end-of-chunk token: no generated position
(at or past the prompt length) other than the final token holds `eoc`. -/
def stopsAtEoc (promptLen : Nat) (eoc : Int) (out : Tensor) : Prop :=
  ∀ i, promptLen ≤ i → i + 1 < out.length → out[i]? ≠ some eoc

/-! ## Helper lemmas -/

theorem forward_fst (m : FlamingoModel) (s : CondState) (vx lx : Tensor)
    (am lb : Option Tensor) :
    (Flamingo.forward m s vx lx am lb).1
      = m.lm_body ((m.vision_encoder vx).last_hidden_state) lx am lb := by
  cases h : m.lm_body ((m.vision_encoder vx).last_hidden_state) lx am lb <;>
    simp [Flamingo.forward, langEncoderCall, h]

theorem forward_snd_error (m : FlamingoModel) (s : CondState) (vx lx : Tensor)
    (am lb : Option Tensor) (e : String)
    (h : m.lm_body ((m.vision_encoder vx).last_hidden_state) lx am lb = Except.error e) :
    (Flamingo.forward m s vx lx am lb).2
      = conditionAll s ((m.vision_encoder vx).last_hidden_state) := by
  simp [Flamingo.forward, langEncoderCall, h]

theorem forward_snd_ok (m : FlamingoModel) (s : CondState) (vx lx : Tensor)
    (am lb : Option Tensor) (o : LMOutput)
    (h : m.lm_body ((m.vision_encoder vx).last_hidden_state) lx am lb = Except.ok o) :
    (Flamingo.forward m s vx lx am lb).2
      = clear_conditioned_layers (conditionAll s ((m.vision_encoder vx).last_hidden_state)) := by
  simp [Flamingo.forward, langEncoderCall, h]

theorem generate_fst (m : FlamingoModel) (s : CondState) (vx lx : Tensor)
    (maxL : Nat) (eoc : Int) (am : Option Tensor) (nb : Nat) (temp : Rat) (tk : Nat)
    (tp : Rat) (nn : Nat) (lp : Rat) (nr : Nat) (ds es : Bool) :
    (Flamingo.generate m s vx lx maxL eoc am nb temp tk tp nn lp nr ds es).1
      = m.lm_generate (GenArgs.mk lx am maxL eoc nb temp tk tp nn lp nr ds es) := by
  unfold Flamingo.generate
  cases m.lm_generate (GenArgs.mk lx am maxL eoc nb temp tk tp nn lp nr ds es) <;> rfl

theorem generate_snd_error (m : FlamingoModel) (s : CondState) (vx lx : Tensor)
    (maxL : Nat) (eoc : Int) (am : Option Tensor) (nb : Nat) (temp : Rat) (tk : Nat)
    (tp : Rat) (nn : Nat) (lp : Rat) (nr : Nat) (ds es : Bool) (e : String)
    (h : m.lm_generate (GenArgs.mk lx am maxL eoc nb temp tk tp nn lp nr ds es)
      = Except.error e) :
    (Flamingo.generate m s vx lx maxL eoc am nb temp tk tp nn lp nr ds es).2
      = conditionAll s (m.perceiver_resampler ((m.vision_encoder vx).last_hidden_state)) := by
  unfold Flamingo.generate
  rw [h]

theorem generate_snd_ok (m : FlamingoModel) (s : CondState) (vx lx : Tensor)
    (maxL : Nat) (eoc : Int) (am : Option Tensor) (nb : Nat) (temp : Rat) (tk : Nat)
    (tp : Rat) (nn : Nat) (lp : Rat) (nr : Nat) (ds es : Bool) (o : Tensor)
    (h : m.lm_generate (GenArgs.mk lx am maxL eoc nb temp tk tp nn lp nr ds es)
      = Except.ok o) :
    (Flamingo.generate m s vx lx maxL eoc am nb temp tk tp nn lp nr ds es).2
      = clear_conditioned_layers
          (conditionAll s (m.perceiver_resampler ((m.vision_encoder vx).last_hidden_state))) := by
  unfold Flamingo.generate
  rw [h]

theorem clear_allUnconditioned (s : CondState) :
    (clear_conditioned_layers s).allUnconditioned := by
  intro x hx
  simp only [clear_conditioned_layers, List.mem_map] at hx
  obtain ⟨a, -, rfl⟩ := hx
  rfl

theorem conditionAll_mem (s : CondState) (t : Tensor) :
    ∀ x ∈ (conditionAll s t).layers, x = some t := by
  intro x hx
  simp only [conditionAll, condition, List.mem_map] at hx
  obtain ⟨a, -, rfl⟩ := hx
  rfl

theorem conditionAll_length (s : CondState) (t : Tensor) :
    (conditionAll s t).layers.length = s.layers.length := by
  simp [conditionAll]

theorem clear_conditionAll (s : CondState) (t : Tensor) :
    clear_conditioned_layers (conditionAll s t) = initState s.layers.length := by
  simp [clear_conditioned_layers, conditionAll, initState, List.map_map, Function.comp_def,
    List.map_const']

theorem conditionAll_allConditioned (s : CondState) (t : Tensor) :
    (conditionAll s t).allConditioned := by
  intro x hx
  rw [conditionAll_mem s t x hx]
  simp

theorem genLoop_length (next : Tensor → Int) (maxLen : Nat) (eoc : Int) :
    ∀ (fuel : Nat) (acc : Tensor), acc.length ≤ maxLen →
      (genLoop next maxLen eoc fuel acc).length ≤ maxLen := by
  intro fuel
  induction fuel with
  | zero => intro acc h; simpa [genLoop] using h
  | succ n ih =>
    intro acc h
    simp only [genLoop]
    split
    · exact h
    · next hlt =>
      push_neg at hlt
      split
      · simpa using hlt
      · exact ih (acc ++ [next acc]) (by simpa using hlt)

theorem genLoop_stops (next : Tensor → Int) (maxLen : Nat) (eoc : Int) (p : Nat) :
    ∀ (fuel : Nat) (acc : Tensor),
      (∀ i, p ≤ i → i < acc.length → acc[i]? ≠ some eoc) →
      stopsAtEoc p eoc (genLoop next maxLen eoc fuel acc) := by
  intro fuel
  induction fuel with
  | zero =>
    intro acc h
    simp only [genLoop]
    intro i hpi hi
    exact h i hpi (by omega)
  | succ n ih =>
    intro acc h
    simp only [genLoop]
    split
    · intro i hpi hi
      exact h i hpi (by omega)
    · split
      · intro i hpi hi
        simp only [List.length_append, List.length_cons, List.length_nil] at hi
        rw [List.getElem?_append_left (by omega)]
        exact h i hpi (by omega)
      · next hne =>
        apply ih
        intro i hpi hilen
        simp only [List.length_append, List.length_cons, List.length_nil] at hilen
        by_cases hcase : i < acc.length
        · rw [List.getElem?_append_left hcase]
          exact h i hpi hcase
        · have hieq : i = acc.length := by omega
          subst hieq
          rw [List.getElem?_concat_length]
          simp only [ne_eq, Option.some.injEq]
          exact hne

/-! ## Concrete sample instances, used by the witness theorems -/

/-- A sample model whose delegated calls succeed. -/
def okModel : FlamingoModel :=
  FlamingoModel.mk (fun t => VisionOutput.mk t) (fun t => t.take 2)
    (fun _ _ _ _ => Except.ok (LMOutput.mk [[0]] none))
    (fun a => Except.ok a.input_ids) (fun _ => 7)

/-- A sample model whose delegated calls raise. -/
def errModel : FlamingoModel :=
  FlamingoModel.mk (fun t => VisionOutput.mk t) (fun t => t.take 2)
    (fun _ _ _ _ => Except.error "E")
    (fun _ => Except.error "G") (fun _ => 7)

/-- A sample model whose generation delegate is the greedy loop modelled
from the spec. -/
def specModel : FlamingoModel :=
  FlamingoModel.mk (fun t => VisionOutput.mk t) (fun t => t.take 2)
    (fun _ _ _ _ => Except.ok (LMOutput.mk [[0]] none))
    (fun a => Except.ok (specGenerate (fun _ => 7) a)) (fun _ => 7)

/-- A sample two-layer conditioning state, one layer still holding stale
features. -/
def sampleState : CondState :=
  CondState.mk [none, some [5]]

/-! ## Claim theorems -/

/-- Claim C1: for every successful call to forward or generate, when the
call returns, every decoder layer's conditioning state equals
"unconditioned", so no visual features from this call are visible to a
subsequent call. -/
theorem claim_c1_success_clears_all_layers (m : FlamingoModel) (s : CondState)
    (vx lx : Tensor) (am lb : Option Tensor) (maxL : Nat) (eoc : Int) (nb : Nat)
    (temp : Rat) (tk : Nat) (tp : Rat) (nn : Nat) (lp : Rat) (nr : Nat) (ds es : Bool) :
    (∀ o, (Flamingo.forward m s vx lx am lb).1 = Except.ok o →
        (Flamingo.forward m s vx lx am lb).2.allUnconditioned)
    ∧ (∀ o,
        (Flamingo.generate m s vx lx maxL eoc am nb temp tk tp nn lp nr ds es).1
          = Except.ok o →
        (Flamingo.generate m s vx lx maxL eoc am nb temp tk tp nn lp nr ds es).2.allUnconditioned) := by
  constructor
  · intro o h
    rw [forward_fst] at h
    rw [forward_snd_ok m s vx lx am lb o h]
    exact clear_allUnconditioned _
  · intro o h
    rw [generate_fst] at h
    rw [generate_snd_ok m s vx lx maxL eoc am nb temp tk tp nn lp nr ds es o h]
    exact clear_allUnconditioned _

/-- Witness for C1 at a concrete model, state and inputs. -/
theorem claim_c1_success_clears_all_layers_witness :
    (Flamingo.forward okModel sampleState [1] [2] none none).2.allUnconditioned
    ∧ (Flamingo.generate okModel sampleState [1] [2] 5 9 none 1 1 0 1 0 1 1
        false false).2.allUnconditioned :=
  ⟨(claim_c1_success_clears_all_layers okModel sampleState [1] [2] none none 5 9 1 1 0 1
      0 1 1 false false).1 (LMOutput.mk [[0]] none) rfl,
   (claim_c1_success_clears_all_layers okModel sampleState [1] [2] none none 5 9 1 1 0 1
      0 1 1 false false).2 [2] rfl⟩

/-- Claim C2: forward encodes vision_x, passes the encoder's
last_hidden_state together with lang_x, attention_mask and labels through
the language model, clears the per-layer conditioning state, and returns
the language model's output unchanged; on an error the state is the
conditioned one and the error is returned as is. -/
theorem claim_c2_forward_steps (m : FlamingoModel) (s : CondState) (vx lx : Tensor)
    (am lb : Option Tensor) :
    Flamingo.forward m s vx lx am lb
      = (match m.lm_body ((m.vision_encoder vx).last_hidden_state) lx am lb with
         | Except.error e =>
             (Except.error e, conditionAll s ((m.vision_encoder vx).last_hidden_state))
         | Except.ok o =>
             (Except.ok o,
               clear_conditioned_layers
                 (conditionAll s ((m.vision_encoder vx).last_hidden_state)))) := by
  cases h : m.lm_body ((m.vision_encoder vx).last_hidden_state) lx am lb <;>
    simp [Flamingo.forward, langEncoderCall, h]

/-- Claim C3: generate encodes vision_x, resamples the encoder output with
the Perceiver resampler, conditions every decoder layer on the resampled
features, delegates decoding to the language model's generation routine
with the arguments passed verbatim, clears the per-layer state and returns
the routine's output unchanged; on an error the state is the conditioned
one and the error is returned as is. -/
theorem claim_c3_generate_steps (m : FlamingoModel) (s : CondState) (vx lx : Tensor)
    (maxL : Nat) (eoc : Int) (am : Option Tensor) (nb : Nat) (temp : Rat) (tk : Nat)
    (tp : Rat) (nn : Nat) (lp : Rat) (nr : Nat) (ds es : Bool) :
    Flamingo.generate m s vx lx maxL eoc am nb temp tk tp nn lp nr ds es
      = (match m.lm_generate (GenArgs.mk lx am maxL eoc nb temp tk tp nn lp nr ds es) with
         | Except.error e =>
             (Except.error e,
               conditionAll s
                 (m.perceiver_resampler ((m.vision_encoder vx).last_hidden_state)))
         | Except.ok o =>
             (Except.ok o,
               clear_conditioned_layers
                 (conditionAll s
                   (m.perceiver_resampler ((m.vision_encoder vx).last_hidden_state))))) := by
  cases h : m.lm_generate (GenArgs.mk lx am maxL eoc nb temp tk tp nn lp nr ds es) <;>
    simp [Flamingo.generate, h]

/-- Claim C4: if the delegated language-model call inside forward or
generate raises, clear_conditioned_layers is not executed: the error
propagates and every decoder layer is left holding the visual features of
the failed call. -/
theorem claim_c4_error_leaves_state_set (m : FlamingoModel) (s : CondState)
    (vx lx : Tensor) (am lb : Option Tensor) (maxL : Nat) (eoc : Int) (nb : Nat)
    (temp : Rat) (tk : Nat) (tp : Rat) (nn : Nat) (lp : Rat) (nr : Nat) (ds es : Bool)
    (e f : String)
    (hb : ∀ v l a b, m.lm_body v l a b = Except.error e)
    (hg : ∀ a, m.lm_generate a = Except.error f) :
    ((Flamingo.forward m s vx lx am lb).1 = Except.error e
      ∧ (Flamingo.forward m s vx lx am lb).2
          = conditionAll s ((m.vision_encoder vx).last_hidden_state)
      ∧ (Flamingo.forward m s vx lx am lb).2.allConditioned)
    ∧ ((Flamingo.generate m s vx lx maxL eoc am nb temp tk tp nn lp nr ds es).1
          = Except.error f
      ∧ (Flamingo.generate m s vx lx maxL eoc am nb temp tk tp nn lp nr ds es).2
          = conditionAll s (m.perceiver_resampler ((m.vision_encoder vx).last_hidden_state))
      ∧ (Flamingo.generate m s vx lx maxL eoc am nb temp tk tp nn lp nr ds es).2.allConditioned) := by
  have hfe := forward_snd_error m s vx lx am lb e (hb _ _ _ _)
  have hge := generate_snd_error m s vx lx maxL eoc am nb temp tk tp nn lp nr ds es f (hg _)
  refine ⟨⟨?_, hfe, ?_⟩, ?_, hge, ?_⟩
  · rw [forward_fst]; exact hb _ _ _ _
  · rw [hfe]; exact conditionAll_allConditioned _ _
  · rw [generate_fst]; exact hg _
  · rw [hge]; exact conditionAll_allConditioned _ _

/-- Witness for C4 at a concrete model whose delegated calls raise. -/
theorem claim_c4_error_leaves_state_set_witness :
    ((Flamingo.forward errModel sampleState [1] [2] none none).1 = Except.error "E"
      ∧ (Flamingo.forward errModel sampleState [1] [2] none none).2
          = conditionAll sampleState [1]
      ∧ (Flamingo.forward errModel sampleState [1] [2] none none).2.allConditioned)
    ∧ ((Flamingo.generate errModel sampleState [1] [2] 5 9 none 1 1 0 1 0 1 1
          false false).1 = Except.error "G"
      ∧ (Flamingo.generate errModel sampleState [1] [2] 5 9 none 1 1 0 1 0 1 1
          false false).2 = conditionAll sampleState [1]
      ∧ (Flamingo.generate errModel sampleState [1] [2] 5 9 none 1 1 0 1 0 1 1
          false false).2.allConditioned) :=
  claim_c4_error_leaves_state_set errModel sampleState [1] [2] none none 5 9 1 1 0 1 0 1 1
    false false "E" "G" (fun _ _ _ _ => rfl) (fun _ => rfl)

/-- Claim C5: every decoding hyperparameter of generate is passed to the
delegated generation routine exactly as received, and eoc_token_id is
passed as the routine's end-of-sequence stopping token. -/
theorem claim_c5_hyperparams_verbatim (m : FlamingoModel) (s : CondState)
    (vx lx : Tensor) (maxL : Nat) (eoc : Int) (am : Option Tensor) (nb : Nat)
    (temp : Rat) (tk : Nat) (tp : Rat) (nn : Nat) (lp : Rat) (nr : Nat) (ds es : Bool) :
    (Flamingo.generate m s vx lx maxL eoc am nb temp tk tp nn lp nr ds es).1
      = m.lm_generate
          { input_ids := lx, attention_mask := am, max_length := maxL,
            eos_token_id := eoc, num_beams := nb, temperature := temp, top_k := tk,
            top_p := tp, no_repeat_ngram_size := nn, length_penalty := lp,
            num_return_sequences := nr, do_sample := ds, early_stopping := es } :=
  generate_fst m s vx lx maxL eoc am nb temp tk tp nn lp nr ds es

/-- Claim C6: when the delegated generation routine is the greedy loop
modelled from the spec and the prompt fits within max_length, generate
never returns a sequence longer than max_length, and with early_stopping
set it stops at eoc_token_id (no generated token before the last one is
eoc). -/
theorem claim_c6_max_length_and_eoc (m : FlamingoModel) (s : CondState) (vx lx : Tensor)
    (maxL : Nat) (eoc : Int) (am : Option Tensor) (nb : Nat) (temp : Rat) (tk : Nat)
    (tp : Rat) (nn : Nat) (lp : Rat) (nr : Nat) (ds : Bool) (out : Tensor)
    (hdel : m.lm_generate = fun a => Except.ok (specGenerate m.next_token a))
    (hlen : lx.length ≤ maxL)
    (h : (Flamingo.generate m s vx lx maxL eoc am nb temp tk tp nn lp nr ds true).1
      = Except.ok out) :
    out.length ≤ maxL ∧ stopsAtEoc lx.length eoc out := by
  rw [generate_fst, hdel] at h
  simp only [Except.ok.injEq] at h
  subst h
  simp only [specGenerate]
  constructor
  · exact genLoop_length m.next_token maxL eoc maxL lx hlen
  · exact genLoop_stops m.next_token maxL eoc lx.length maxL lx
      (fun i h1 h2 => absurd h1 (by omega))

/-- Counterexample to C6 as stated for every input: when the prompt is
already longer than max_length, the delegated routine returns it unchanged,
so the returned sequence exceeds max_length. -/
theorem claim_c6_counterexample :
    (Flamingo.generate specModel sampleState [1] [1, 2, 3, 4] 2 9 none 1 1 0 1 0 1 1
        false true).1 = Except.ok [1, 2, 3, 4]
    ∧ ¬ ([1, 2, 3, 4] : Tensor).length ≤ 2 := by
  constructor
  · rfl
  · decide

/-- Witness for C6 at a concrete model running the modelled greedy loop. -/
theorem claim_c6_max_length_and_eoc_witness :
    ([2, 7, 7] : Tensor).length ≤ 3 ∧ stopsAtEoc 1 9 [2, 7, 7] :=
  claim_c6_max_length_and_eoc specModel sampleState [1] [2] 3 9 none 1 1 0 1 0 1 1 false
    [2, 7, 7] rfl (by decide) rfl

/-- Claim C7: after a successful generate, a subsequent forward on the
resulting state is identical to forward on a pristine (freshly initialized)
state with the same inputs: generate leaves no state behind. -/
theorem claim_c7_generate_then_forward_pristine (m : FlamingoModel) (s : CondState)
    (vx lx : Tensor) (maxL : Nat) (eoc : Int) (am : Option Tensor) (nb : Nat)
    (temp : Rat) (tk : Nat) (tp : Rat) (nn : Nat) (lp : Rat) (nr : Nat) (ds es : Bool)
    (out vx2 lx2 : Tensor) (am2 lb2 : Option Tensor)
    (h : (Flamingo.generate m s vx lx maxL eoc am nb temp tk tp nn lp nr ds es).1
      = Except.ok out) :
    Flamingo.forward m (Flamingo.generate m s vx lx maxL eoc am nb temp tk tp nn lp nr ds es).2
        vx2 lx2 am2 lb2
      = Flamingo.forward m (initState s.layers.length) vx2 lx2 am2 lb2 := by
  rw [generate_fst] at h
  rw [generate_snd_ok m s vx lx maxL eoc am nb temp tk tp nn lp nr ds es out h,
    clear_conditionAll]

/-- Witness for C7 at a concrete model and inputs. -/
theorem claim_c7_generate_then_forward_pristine_witness :
    Flamingo.forward okModel
        (Flamingo.generate okModel sampleState [1] [2] 5 9 none 1 1 0 1 0 1 1
          false false).2 [3] [4] none none
      = Flamingo.forward okModel (initState 2) [3] [4] none none :=
  claim_c7_generate_then_forward_pristine okModel sampleState [1] [2] 5 9 none 1 1 0 1 0 1
    1 false false [2] [3] [4] none none rfl

/-- Claim C8: forward adds no validation, wrapping, retry or recovery of
its own: it returns an error exactly when the delegated language-model call
returns that same error. -/
theorem claim_c8_error_propagation (m : FlamingoModel) (s : CondState) (vx lx : Tensor)
    (am lb : Option Tensor) (e : String) :
    (Flamingo.forward m s vx lx am lb).1 = Except.error e
      ↔ m.lm_body ((m.vision_encoder vx).last_hidden_state) lx am lb = Except.error e := by
  rw [forward_fst]

/-- Claim C9: forward conditions the decoder layers on the vision encoder's
raw last_hidden_state, without the Perceiver resampler, whereas generate
conditions them on the resampler applied to that output. -/
theorem claim_c9_raw_vs_resampled (m : FlamingoModel) (s : CondState) (vx lx : Tensor)
    (am lb : Option Tensor) (maxL : Nat) (eoc : Int) (nb : Nat) (temp : Rat) (tk : Nat)
    (tp : Rat) (nn : Nat) (lp : Rat) (nr : Nat) (ds es : Bool) (e f : String)
    (hb : ∀ v l a b, m.lm_body v l a b = Except.error e)
    (hg : ∀ a, m.lm_generate a = Except.error f) :
    (Flamingo.forward m s vx lx am lb).2.layers
        = s.layers.map (condition ((m.vision_encoder vx).last_hidden_state))
    ∧ (Flamingo.generate m s vx lx maxL eoc am nb temp tk tp nn lp nr ds es).2.layers
        = s.layers.map
            (condition (m.perceiver_resampler ((m.vision_encoder vx).last_hidden_state))) := by
  constructor
  · rw [forward_snd_error m s vx lx am lb e (hb _ _ _ _)]
    rfl
  · rw [generate_snd_error m s vx lx maxL eoc am nb temp tk tp nn lp nr ds es f (hg _)]
    rfl

/-- Witness for C9: with the sample resampler, the tensors the two
entry points condition on differ. -/
theorem claim_c9_raw_vs_resampled_witness :
    (Flamingo.forward errModel sampleState [1, 2, 3] [4] none none).2.layers
        = sampleState.layers.map (condition [1, 2, 3])
    ∧ (Flamingo.generate errModel sampleState [1, 2, 3] [4] 5 9 none 1 1 0 1 0 1 1
        false false).2.layers
        = sampleState.layers.map (condition [1, 2]) :=
  claim_c9_raw_vs_resampled errModel sampleState [1, 2, 3] [4] none none 5 9 1 1 0 1 0 1 1
    false false "E" "G" (fun _ _ _ _ => rfl) (fun _ => rfl)

/-- Claim C10: in every call to generate, one resampled tensor is computed
and every decoder layer — the full list, none skipped — is conditioned with
that same tensor. -/
theorem claim_c10_same_tensor_all_layers (m : FlamingoModel) (s : CondState)
    (vx lx : Tensor) (maxL : Nat) (eoc : Int) (am : Option Tensor) (nb : Nat)
    (temp : Rat) (tk : Nat) (tp : Rat) (nn : Nat) (lp : Rat) (nr : Nat) (ds es : Bool)
    (f : String) (hg : ∀ a, m.lm_generate a = Except.error f) :
    ∃ v, (Flamingo.generate m s vx lx maxL eoc am nb temp tk tp nn lp nr ds es).2.layers.length
          = s.layers.length
      ∧ ∀ x ∈ (Flamingo.generate m s vx lx maxL eoc am nb temp tk tp nn lp nr ds es).2.layers,
          x = some v := by
  refine ⟨m.perceiver_resampler ((m.vision_encoder vx).last_hidden_state), ?_, ?_⟩
  · rw [generate_snd_error m s vx lx maxL eoc am nb temp tk tp nn lp nr ds es f (hg _)]
    exact conditionAll_length s _
  · rw [generate_snd_error m s vx lx maxL eoc am nb temp tk tp nn lp nr ds es f (hg _)]
    exact conditionAll_mem s _

/-- Witness for C10 at a concrete model and a two-layer state. -/
theorem claim_c10_same_tensor_all_layers_witness :
    ∃ v, (Flamingo.generate errModel sampleState [1] [2] 5 9 none 1 1 0 1 0 1 1
          false false).2.layers.length = sampleState.layers.length
      ∧ ∀ x ∈ (Flamingo.generate errModel sampleState [1] [2] 5 9 none 1 1 0 1 0 1 1
          false false).2.layers, x = some v :=
  claim_c10_same_tensor_all_layers errModel sampleState [1] [2] 5 9 none 1 1 0 1 0 1 1
    false false "G" (fun _ => rfl)

end OpenFlamingo
